import Mathlib

/-!
Verification of the ScanNet batch segmentator orchestrator
(`Segmentator/batch_segmentator.py`).

The script drives an external segmentation binary over a set of scene
directories.  Per scene (`process_scene`) it: checks the input PLY exists,
invokes the binary, globs for the generated `*.segs.json` candidates,
selects one (threshold-substring match first, else latest mtime), parses
and validates it (`segIndices` field), and copies it to a fixed canonical
output filename.  `main` filters already-produced scenes (`--skip_existing`)
and aggregates per-scene results, sequentially or via a process pool.

The embedding below models the filesystem/process environment of a single
scene as explicit data (`SceneEnv`), and `process_scene` / the aggregation
loops of `main` as pure functions over it.
-/

namespace BatchSegmentator

/-- Substring helper: does `hay` start with `needle`?  (Char-list level,
mirrors Python's `str.__contains__` building block.) -/
def prefixAt : List Char → List Char → Bool
  | _, [] => true
  | [], _ :: _ => false
  | h :: hs, n :: ns => h == n && prefixAt hs ns

/-- `hasSub hay needle` is true iff `needle` occurs contiguously in `hay`;
models Python's `needle in hay` on strings. -/
def hasSub : List Char → List Char → Bool
  | [], needle => needle.isEmpty
  | h :: hs, needle => prefixAt (h :: hs) needle || hasSub hs needle

/-- `strContains hay needle` models Python's `needle in hay` substring test. -/
def strContains (hay needle : String) : Bool :=
  hasSub hay.data needle.data

/-- Zero-pad a natural number to six decimal digits. -/
def padSix (n : Nat) : String :=
  let s := toString n
  String.mk (List.replicate (6 - s.length) '0') ++ s

/-- Models Python's `f"{kthresh:.6f}"` (line 73) for a non-negative
threshold given exactly in micro-units (`micro = kthresh * 10^6`), e.g.
`kthresh = 0.01` is `micro = 10000` and formats as `"0.010000"`. -/
def format6 (micro : Nat) : String :=
  toString (micro / 1000000) ++ "." ++ padSix (micro % 1000000)

/-- Parsed-or-not content of a candidate `.segs.json` file, as far as the
script inspects it: `json.load` either raises (`notJson`, carrying the
exception's message) or yields a document that does or does not contain
the key `"segIndices"` (lines 82-86). -/
inductive FileContent where
  | notJson (errMsg : String)
  | json (hasSegIndices : Bool)
deriving DecidableEq, Repr

/-- One glob candidate `<scene>_vh_clean_2.*.segs.json` in the scene
directory: its filename, its `st_mtime`, and its content. -/
structure CandidateFile where
  name : String
  mtime : Nat
  content : FileContent
deriving DecidableEq, Repr

/-- Behaviour of the `subprocess.run` call (lines 55-61) for one scene:
either the binary cannot be launched at all (`OSError` with the given
message), or it runs, exits with `exitCode` / `stderr`, and afterwards the
glob on line 67 returns `candidates` (in glob order). -/
inductive ExternalBehaviour where
  | launchFailure (osErrMsg : String)
  | exits (exitCode : Nat) (stderr : String) (candidates : List CandidateFile)
deriving DecidableEq, Repr

/-- The scene-directory environment one `process_scene` call sees:
whether `<scene>_vh_clean_2.ply` exists (line 42), and what the external
binary does when invoked. -/
structure SceneEnv where
  plyExists : Bool
  external : ExternalBehaviour
deriving DecidableEq, Repr

/-- Result of one `process_scene` call: the returned triple
`(success, scene_name, error_msg)` (lines 36, 43, 70, 87, 103, 106, 108),
plus the two observable side effects the claims are about: whether
`subprocess.run` was reached, and which filenames were written into the
output directory (`shutil.copy2`, line 98). -/
structure ProcResult where
  success : Bool
  sceneName : String
  errMsg : Option String
  invoked : Bool
  written : List String
deriving DecidableEq, Repr

/-- The canonical output filename `f"{scene_name}_vh_clean_2.0.010000.segs.json"`
(line 90); also used by the `--skip_existing` filter (line 209). -/
def outputFilename (sceneName : String) : String :=
  sceneName ++ "_vh_clean_2.0.010000.segs.json"

/-- Python's `max(candidates, key=lambda p: p.stat().st_mtime)` (line 79)
over the nonempty list `c :: cs`: the first element attaining the maximal
mtime (later elements replace the current best only when strictly newer). -/
def maxByMtime (c : CandidateFile) (cs : List CandidateFile) : CandidateFile :=
  cs.foldl (fun best x => if best.mtime < x.mtime then x else best) c

/-- Candidate selection (lines 69-79), isolated as a pure function of the
glob result: `none` iff the glob found nothing; otherwise the first
candidate whose filename contains the 6-decimal threshold string, else the
mtime-latest candidate. -/
def selectCandidate (kthreshStr : String) : List CandidateFile → Option CandidateFile
  | [] => none
  | c :: cs =>
    match (c :: cs).filter (fun x => strContains x.name kthreshStr) with
    | m :: _ => some m
    | [] => some (maxByMtime c cs)

/-- `process_scene(scene_dir, output_dir, segmentator_bin, kthresh,
seg_min_verts)` (lines 24-108), over the scene environment.  `kthreshMicro`
is the threshold in micro-units (see `format6`). -/
def processScene (sceneName : String) (env : SceneEnv) (kthreshMicro : Nat) : ProcResult :=
  if !env.plyExists then
    { success := false, sceneName := sceneName,
      errMsg := some ("PLY file not found: " ++ sceneName ++ "_vh_clean_2.ply"),
      invoked := false, written := [] }
  else
    match env.external with
    | .launchFailure osErrMsg =>
      -- OSError from subprocess.run is caught by `except Exception` (line 107)
      { success := false, sceneName := sceneName,
        errMsg := some ("Unexpected error: " ++ osErrMsg),
        invoked := true, written := [] }
    | .exits exitCode stderr candidates =>
      if exitCode != 0 then
        -- check=True raises CalledProcessError, caught on line 105
        { success := false, sceneName := sceneName,
          errMsg := some ("Segmentator error: " ++ stderr),
          invoked := true, written := [] }
      else
        match selectCandidate (format6 kthreshMicro) candidates with
        | none =>
          -- lines 69-70: empty glob result
          { success := false, sceneName := sceneName,
            errMsg := some ("No segs.json file generated for " ++ sceneName),
            invoked := true, written := [] }
        | some segFile =>
          match segFile.content with
          | .notJson errMsg =>
            -- json.load raised; caught by `except Exception` (line 107)
            { success := false, sceneName := sceneName,
              errMsg := some ("Unexpected error: " ++ errMsg),
              invoked := true, written := [] }
          | .json hasSegIndices =>
            if !hasSegIndices then
              { success := false, sceneName := sceneName,
                errMsg := some "Invalid segs.json format: missing segIndices",
                invoked := true, written := [] }
            else
              { success := true, sceneName := sceneName, errMsg := none,
                invoked := true, written := [outputFilename sceneName] }

/-- A scene task: the scene directory's name together with its environment. -/
abbrev SceneTask := String × SceneEnv

/-- The sequential path of `main` (lines 258-272): `process_scene` applied
to each scene in order. -/
def runSeq (kthreshMicro : Nat) (scenes : List SceneTask) : List ProcResult :=
  scenes.map (fun s => processScene s.1 s.2 kthreshMicro)

/-- What one completed future delivers in the parallel path: either the
`process_scene` return value (`future.result()`, line 244), or an
exception raised out of the task (caught on line 252). -/
inductive WorkerOutcome where
  | result (r : ProcResult)
  | raised (excMsg : String)
deriving DecidableEq, Repr

/-- Aggregation state: `success_count`, `fail_count`, `failed_scenes`
(lines 219-221). -/
structure BatchCounts where
  success : Nat
  fail : Nat
  failedScenes : List (String × String)
deriving DecidableEq, Repr

/-- One iteration of the parallel `as_completed` loop (lines 241-257):
the scene name is the dict value `future_to_scene[future]`, used when the
future itself raised. -/
def stepPar (acc : BatchCounts) (out : String × WorkerOutcome) : BatchCounts :=
  match out.2 with
  | .result r =>
    if r.success then
      { acc with success := acc.success + 1 }
    else
      { acc with
        fail := acc.fail + 1
        failedScenes := acc.failedScenes ++ [(r.sceneName, r.errMsg.getD "")] }
  | .raised excMsg =>
    { acc with
      fail := acc.fail + 1
      failedScenes := acc.failedScenes ++ [(out.1, excMsg)] }

/-- The parallel aggregation loop over the completed futures, in
completion order. -/
def aggregatePar (outs : List (String × WorkerOutcome)) : BatchCounts :=
  outs.foldl stepPar { success := 0, fail := 0, failedScenes := [] }

/-- One iteration of the sequential loop (lines 260-272). -/
def stepSeq (acc : BatchCounts) (r : ProcResult) : BatchCounts :=
  if r.success then
    { acc with success := acc.success + 1 }
  else
    { acc with
      fail := acc.fail + 1
      failedScenes := acc.failedScenes ++ [(r.sceneName, r.errMsg.getD "")] }

/-- The sequential aggregation over `process_scene` results. -/
def aggregateSeq (rs : List ProcResult) : BatchCounts :=
  rs.foldl stepSeq { success := 0, fail := 0, failedScenes := [] }

/-- The `--skip_existing` filter (lines 206-215): keep only the scenes
whose canonical output filename is not already in the output directory
(modelled as the list `outDir` of filenames it contains). -/
def skipFilter (outDir : List String) (scenes : List SceneTask) : List SceneTask :=
  scenes.filter (fun s => !(outDir.contains (outputFilename s.1)))

/-- Filenames written into the output directory by a list of task results. -/
def writtenFiles (rs : List ProcResult) : List String :=
  (rs.map (fun r => r.written)).flatten

/-- Number of tasks in `rs` that reached the external-binary invocation. -/
def invocationCount (rs : List ProcResult) : Nat :=
  (rs.filter (fun r => r.invoked)).length

/-- One whole batch run with `--skip_existing` enabled: filter the scenes
against the current output directory, then process the rest sequentially. -/
def runWithSkip (kthreshMicro : Nat) (outDir : List String) (scenes : List SceneTask) :
    List ProcResult :=
  runSeq kthreshMicro (skipFilter outDir scenes)

/-- Output-directory contents after a `runWithSkip` batch: what was there
before plus every file the run copied in. -/
def outputsAfterRun (kthreshMicro : Nat) (outDir : List String) (scenes : List SceneTask) :
    List String :=
  outDir ++ writtenFiles (runWithSkip kthreshMicro outDir scenes)

/-! ### Helper lemmas -/

theorem maxByMtime_mem (c : CandidateFile) (cs : List CandidateFile) :
    maxByMtime c cs ∈ c :: cs := by
  induction cs generalizing c with
  | nil => simp [maxByMtime]
  | cons y ys ih =>
    unfold maxByMtime
    rw [List.foldl_cons]
    rcases List.mem_cons.mp (ih (if c.mtime < y.mtime then y else c)) with h | h
    · rw [maxByMtime] at h
      rw [h]
      split
      · exact List.mem_cons_of_mem _ (List.mem_cons_self _ _)
      · exact List.mem_cons_self _ _
    · exact List.mem_cons_of_mem _ (List.mem_cons_of_mem _ h)

theorem le_maxByMtime (c : CandidateFile) (cs : List CandidateFile) :
    ∀ x ∈ c :: cs, x.mtime ≤ (maxByMtime c cs).mtime := by
  induction cs generalizing c with
  | nil =>
    intro x hx
    simp [maxByMtime] at hx ⊢
    rw [hx]
  | cons y ys ih =>
    intro x hx
    have hstep : maxByMtime c (y :: ys) = maxByMtime (if c.mtime < y.mtime then y else c) ys := by
      unfold maxByMtime
      rw [List.foldl_cons]
    rw [hstep]
    rcases List.mem_cons.mp hx with h | h
    · subst h
      refine le_trans ?_ (ih _ _ (List.mem_cons_self _ _))
      split
      · exact le_of_lt (by assumption)
      · exact le_refl _
    · rcases List.mem_cons.mp h with h' | h'
      · subst h'
        refine le_trans ?_ (ih _ _ (List.mem_cons_self _ _))
        split
        · exact le_refl _
        · exact le_of_not_lt (by assumption)
      · exact ih _ _ (List.mem_cons_of_mem _ h')

theorem processScene_success_written (sceneName : String) (env : SceneEnv) (kthreshMicro : Nat)
    (h : (processScene sceneName env kthreshMicro).success = true) :
    (processScene sceneName env kthreshMicro).written = [outputFilename sceneName] := by
  obtain ⟨ply, ext⟩ := env
  cases ply with
  | false => simp [processScene] at h
  | true =>
    cases ext with
    | launchFailure m => simp [processScene] at h
    | exits code stderr cands =>
      simp only [processScene] at h ⊢
      split at h
      · simp at h
      · split at h
        · simp at h
        · split at h
          · simp at h
          · split at h
            · simp at h
            · split at h
              · simp at h
              · simp_all

theorem foldl_stepSeq_counts (rs : List ProcResult) (acc : BatchCounts) :
    (rs.foldl stepSeq acc).success + (rs.foldl stepSeq acc).fail =
      acc.success + acc.fail + rs.length := by
  induction rs generalizing acc with
  | nil => simp
  | cons r rs ih =>
    rw [List.foldl_cons, ih]
    unfold stepSeq
    split <;> simp <;> omega

theorem foldl_stepPar_counts (outs : List (String × WorkerOutcome)) (acc : BatchCounts) :
    (outs.foldl stepPar acc).success + (outs.foldl stepPar acc).fail =
      acc.success + acc.fail + outs.length := by
  induction outs generalizing acc with
  | nil => simp
  | cons o outs ih =>
    rw [List.foldl_cons, ih]
    unfold stepPar
    rcases o with ⟨s, r | e⟩
    · dsimp only
      split <;> simp <;> omega
    · simp
      omega

/-- A concrete three-scene batch used to instantiate the theorems:
`sceneA`'s pipeline raises, `sceneB` misses its PLY, `sceneC` succeeds. -/
def demoTasks : List SceneTask :=
  [("sceneA", ⟨true, .launchFailure "boom"⟩),
   ("sceneB", ⟨false, .exits 0 "" []⟩),
   ("sceneC", ⟨true, .exits 0 ""
     [⟨"sceneC_vh_clean_2.0.010000.segs.json", 3, .json true⟩]⟩)]

/-- `demoTasks` in a different (completion) order. -/
def demoDispatched : List SceneTask :=
  [("sceneC", ⟨true, .exits 0 ""
     [⟨"sceneC_vh_clean_2.0.010000.segs.json", 3, .json true⟩]⟩),
   ("sceneA", ⟨true, .launchFailure "boom"⟩),
   ("sceneB", ⟨false, .exits 0 "" []⟩)]

/-- A worker function over `demoTasks` in which `sceneA`'s future raises
and the others return their `process_scene` result. -/
def demoWorker (t : SceneTask) : WorkerOutcome :=
  if t.1 == "sceneA" then .raised "crash" else .result (processScene t.1 t.2 10000)

/-! ### Claims -/

/-- C1: every dispatched task is counted exactly once, as a success or as
a failure, at batch end: in the process-pool path (where the completed
futures arrive in an arbitrary order `dispatched`, each delivering either
the task result or a raised exception `wf t`) and in the sequential path,
`success_count + fail_count` equals the number of dispatched tasks. -/
theorem C1_one_outcome_per_task (kthreshMicro : Nat) (tasks dispatched : List SceneTask)
    (wf : SceneTask → WorkerOutcome) (hperm : dispatched.Perm tasks) :
    ((aggregatePar (dispatched.map (fun t => (t.1, wf t)))).success +
      (aggregatePar (dispatched.map (fun t => (t.1, wf t)))).fail = tasks.length) ∧
    ((aggregateSeq (runSeq kthreshMicro tasks)).success +
      (aggregateSeq (runSeq kthreshMicro tasks)).fail = tasks.length) := by
  constructor
  · rw [aggregatePar, foldl_stepPar_counts, List.length_map, hperm.length_eq]
    simp
  · rw [aggregateSeq, foldl_stepSeq_counts, runSeq, List.length_map]
    simp

/-- C1 witness: a concrete three-task batch, completed out of order, with
one success, one ordinary failure and one raised exception, counts 1 + 2 = 3. -/
theorem C1_one_outcome_per_task_witness :
    ((aggregatePar (demoDispatched.map (fun t => (t.1, demoWorker t)))).success +
      (aggregatePar (demoDispatched.map (fun t => (t.1, demoWorker t)))).fail =
      demoTasks.length) ∧
    ((aggregateSeq (runSeq 10000 demoTasks)).success +
      (aggregateSeq (runSeq 10000 demoTasks)).fail = demoTasks.length) :=
  C1_one_outcome_per_task 10000 demoTasks demoDispatched demoWorker (by decide)

/-- C2: if any glob candidate filename contains the 6-decimal-formatted
threshold as an exact substring, the resolver selects the first such
candidate (`matching[0]`, line 76) — deterministic in the candidate order. -/
theorem C2_exact_match_selected_first (kthreshMicro : Nat) (cs rest : List CandidateFile)
    (m : CandidateFile)
    (h : cs.filter (fun x => strContains x.name (format6 kthreshMicro)) = m :: rest) :
    selectCandidate (format6 kthreshMicro) cs = some m := by
  cases cs with
  | nil => simp at h
  | cons c cs =>
    simp only [selectCandidate]
    rw [h]

/-- C2 witness: with threshold `0.01` and candidates
`s_vh_clean_2.0.005000.segs.json`, `s_vh_clean_2.0.010000.segs.json`,
the `0.010000` candidate is selected (despite the other one being newer). -/
theorem C2_exact_match_selected_first_witness :
    selectCandidate (format6 10000)
      [⟨"s_vh_clean_2.0.005000.segs.json", 9, .json true⟩,
       ⟨"s_vh_clean_2.0.010000.segs.json", 1, .json true⟩] =
      some ⟨"s_vh_clean_2.0.010000.segs.json", 1, .json true⟩ :=
  C2_exact_match_selected_first 10000 _ []
    ⟨"s_vh_clean_2.0.010000.segs.json", 1, .json true⟩ (by decide)

/-- C3: every successful task writes exactly the canonical output file
`<scene_id>_vh_clean_2.0.010000.segs.json`, a fixed literal independent of
the configured threshold (line 90). -/
theorem C3_canonical_output_path (sceneName : String) (env : SceneEnv) (kthreshMicro : Nat)
    (h : (processScene sceneName env kthreshMicro).success = true) :
    (processScene sceneName env kthreshMicro).written =
      [sceneName ++ "_vh_clean_2.0.010000.segs.json"] :=
  processScene_success_written sceneName env kthreshMicro h

/-- C3 witness: a successful run configured with threshold `0.000777`
still writes the `0.010000`-suffixed canonical filename. -/
theorem C3_canonical_output_path_witness :
    (processScene "sceneC"
        ⟨true, .exits 0 "" [⟨"sceneC_vh_clean_2.0.010000.segs.json", 3, .json true⟩]⟩
        777).written =
      ["sceneC" ++ "_vh_clean_2.0.010000.segs.json"] :=
  C3_canonical_output_path "sceneC"
    ⟨true, .exits 0 "" [⟨"sceneC_vh_clean_2.0.010000.segs.json", 3, .json true⟩]⟩
    777 (by decide)

/-- C4: with zero glob candidates the task fails with the
no-output-generated error (lines 69-70); with candidates but no
threshold-substring match, the resolver totally and deterministically
selects the mtime-latest candidate (line 79), which is a member of the
candidate list and newest among them — no error even on mtime ties. -/
theorem C4_zero_candidates_and_mtime_fallback (sceneName stderr : String) (kthreshMicro : Nat)
    (c : CandidateFile) (cs : List CandidateFile)
    (hnomatch : (c :: cs).filter (fun x => strContains x.name (format6 kthreshMicro)) = []) :
    ((processScene sceneName ⟨true, .exits 0 stderr []⟩ kthreshMicro).success = false ∧
     (processScene sceneName ⟨true, .exits 0 stderr []⟩ kthreshMicro).errMsg =
       some ("No segs.json file generated for " ++ sceneName)) ∧
    selectCandidate (format6 kthreshMicro) (c :: cs) = some (maxByMtime c cs) ∧
    maxByMtime c cs ∈ c :: cs ∧
    (∀ x ∈ c :: cs, x.mtime ≤ (maxByMtime c cs).mtime) := by
  refine ⟨⟨rfl, rfl⟩, ?_, maxByMtime_mem c cs, le_maxByMtime c cs⟩
  simp only [selectCandidate]
  rw [hnomatch]

/-- Concrete fallback candidates for instantiating C4: neither name
contains `0.000777`; the second is newer. -/
def candD1 : CandidateFile := ⟨"sceneD_vh_clean_2.0.005000.segs.json", 5, .json true⟩

/-- See `candD1`. -/
def candD2 : CandidateFile := ⟨"sceneD_vh_clean_2.0.010000.segs.json", 9, .json true⟩

/-- C4 witness: threshold `0.000777` matches no candidate name; the
resolver falls back to the newest candidate (mtime 9). -/
theorem C4_zero_candidates_and_mtime_fallback_witness :
    (((processScene "sceneD" ⟨true, .exits 0 "" []⟩ 777).success = false ∧
      (processScene "sceneD" ⟨true, .exits 0 "" []⟩ 777).errMsg =
        some ("No segs.json file generated for " ++ "sceneD")) ∧
     selectCandidate (format6 777) (candD1 :: [candD2]) =
       some (maxByMtime candD1 [candD2]) ∧
     maxByMtime candD1 [candD2] ∈ candD1 :: [candD2] ∧
     (∀ x ∈ candD1 :: [candD2], x.mtime ≤ (maxByMtime candD1 [candD2]).mtime)) :=
  C4_zero_candidates_and_mtime_fallback "sceneD" "" 777 candD1 [candD2] (by decide)

/-- C6: a selected candidate whose document lacks `segIndices` makes the
task fail with the invalid-format error (lines 86-87), and nothing is
copied into the output directory. -/
theorem C6_missing_segIndices (sceneName stderr : String) (kthreshMicro : Nat)
    (candidates : List CandidateFile) (seg : CandidateFile)
    (hsel : selectCandidate (format6 kthreshMicro) candidates = some seg)
    (hcontent : seg.content = .json false) :
    (processScene sceneName ⟨true, .exits 0 stderr candidates⟩ kthreshMicro).success = false ∧
    (processScene sceneName ⟨true, .exits 0 stderr candidates⟩ kthreshMicro).errMsg =
      some "Invalid segs.json format: missing segIndices" ∧
    (processScene sceneName ⟨true, .exits 0 stderr candidates⟩ kthreshMicro).written = [] := by
  simp only [processScene, hsel, hcontent]
  exact ⟨rfl, rfl, rfl⟩

/-- C6 witness: a single candidate parsed as a document without
`segIndices` fails validation and writes nothing. -/
theorem C6_missing_segIndices_witness :
    (processScene "sceneE"
      ⟨true, .exits 0 "" [⟨"sceneE_vh_clean_2.0.010000.segs.json", 2, .json false⟩]⟩
      10000).success = false ∧
    (processScene "sceneE"
      ⟨true, .exits 0 "" [⟨"sceneE_vh_clean_2.0.010000.segs.json", 2, .json false⟩]⟩
      10000).errMsg = some "Invalid segs.json format: missing segIndices" ∧
    (processScene "sceneE"
      ⟨true, .exits 0 "" [⟨"sceneE_vh_clean_2.0.010000.segs.json", 2, .json false⟩]⟩
      10000).written = [] :=
  C6_missing_segIndices "sceneE" "" 10000
    [⟨"sceneE_vh_clean_2.0.010000.segs.json", 2, .json false⟩]
    ⟨"sceneE_vh_clean_2.0.010000.segs.json", 2, .json false⟩ (by decide) (by decide)

/-- C7: a scene whose `<scene_id>_vh_clean_2.ply` is absent fails with the
PLY-not-found error (lines 42-43) before `subprocess.run` is ever reached,
and writes nothing. -/
theorem C7_missing_input (sceneName : String) (env : SceneEnv) (kthreshMicro : Nat)
    (h : env.plyExists = false) :
    (processScene sceneName env kthreshMicro).success = false ∧
    (processScene sceneName env kthreshMicro).errMsg =
      some ("PLY file not found: " ++ sceneName ++ "_vh_clean_2.ply") ∧
    (processScene sceneName env kthreshMicro).invoked = false ∧
    (processScene sceneName env kthreshMicro).written = [] := by
  simp only [processScene, h]
  exact ⟨rfl, rfl, rfl, rfl⟩

/-- C7 witness: a concrete PLY-less scene fails without invoking the
binary. -/
theorem C7_missing_input_witness :
    (processScene "sceneB" ⟨false, .exits 0 "" []⟩ 10000).success = false ∧
    (processScene "sceneB" ⟨false, .exits 0 "" []⟩ 10000).errMsg =
      some ("PLY file not found: " ++ "sceneB" ++ "_vh_clean_2.ply") ∧
    (processScene "sceneB" ⟨false, .exits 0 "" []⟩ 10000).invoked = false ∧
    (processScene "sceneB" ⟨false, .exits 0 "" []⟩ 10000).written = [] :=
  C7_missing_input "sceneB" ⟨false, .exits 0 "" []⟩ 10000 (by decide)

/-- Messages produced by catching a raised exception at the task boundary
(line 108) can never be the invalid-format message of line 87: their
`"Unexpected error: "` prefix differs. -/
theorem unexpectedErr_ne_invalidFmt (msg : String) :
    some ("Unexpected error: " ++ msg) ≠
      some ("Invalid segs.json format: missing segIndices" : String) := by
  intro h
  have h1 : strContains ("Unexpected error: " ++ msg) "Unexpected error" =
      strContains "Invalid segs.json format: missing segIndices" "Unexpected error" :=
    congrArg (fun s => strContains s "Unexpected error") (Option.some.inj h)
  rw [show strContains ("Unexpected error: " ++ msg) "Unexpected error" = true from rfl] at h1
  exact absurd h1.symm (by decide)

/-- C8: with fixed per-scene external behaviour, the multiset of
`(scene_id, status)` outcomes of the sequential path (`worker_count=1`)
equals that of the pool path (`worker_count=8`), whose per-task results
are the same pure `process_scene` values arriving in an arbitrary
completion order; only the order differs. -/
theorem C8_seq_pool_same_outcome_multiset (kthreshMicro : Nat)
    (tasks completionOrder : List SceneTask)
    (hperm : completionOrder.Perm tasks) :
    (↑((runSeq kthreshMicro tasks).map (fun r => (r.sceneName, r.success)))
        : Multiset (String × Bool)) =
      ↑((runSeq kthreshMicro completionOrder).map (fun r => (r.sceneName, r.success))) := by
  apply Multiset.coe_eq_coe.mpr
  exact ((hperm.map (fun s => processScene s.1 s.2 kthreshMicro)).map
    (fun r => (r.sceneName, r.success))).symm

/-- C8 witness: the demo batch processed in dispatch order and in the
permuted completion order yields the same outcome multiset. -/
theorem C8_seq_pool_same_outcome_multiset_witness :
    (↑((runSeq 10000 demoTasks).map (fun r => (r.sceneName, r.success)))
        : Multiset (String × Bool)) =
      ↑((runSeq 10000 demoDispatched).map (fun r => (r.sceneName, r.success))) :=
  C8_seq_pool_same_outcome_multiset 10000 demoTasks demoDispatched (by decide)

/-- C10: a selected candidate that `json.load` cannot parse is caught by
the broad `except Exception` (lines 107-108): the outcome is an ordinary
failure whose detail is `"Unexpected error: <exception>"` — not the
invalid-format failure — no file is written for that scene, and every
other task of the batch still yields its outcome. -/
theorem C10_unparseable_candidate (sceneName stderr excMsg : String) (kthreshMicro : Nat)
    (candidates : List CandidateFile) (seg : CandidateFile)
    (pre post : List SceneTask)
    (hsel : selectCandidate (format6 kthreshMicro) candidates = some seg)
    (hcontent : seg.content = .notJson excMsg) :
    (processScene sceneName ⟨true, .exits 0 stderr candidates⟩ kthreshMicro).success = false ∧
    (processScene sceneName ⟨true, .exits 0 stderr candidates⟩ kthreshMicro).errMsg =
      some ("Unexpected error: " ++ excMsg) ∧
    (processScene sceneName ⟨true, .exits 0 stderr candidates⟩ kthreshMicro).errMsg ≠
      some "Invalid segs.json format: missing segIndices" ∧
    (processScene sceneName ⟨true, .exits 0 stderr candidates⟩ kthreshMicro).written = [] ∧
    (runSeq kthreshMicro
        (pre ++ (sceneName, (⟨true, .exits 0 stderr candidates⟩ : SceneEnv)) :: post)).length =
      pre.length + 1 + post.length := by
  refine ⟨?_, ?_, ?_, ?_, ?_⟩
  · simp only [processScene, hsel, hcontent]
    rfl
  · simp only [processScene, hsel, hcontent]
    rfl
  · simp only [processScene, hsel, hcontent]
    exact unexpectedErr_ne_invalidFmt excMsg
  · simp only [processScene, hsel, hcontent]
    rfl
  · rw [runSeq, List.length_map, List.length_append, List.length_cons]
    omega

/-- A concrete scene that succeeds (candidate parses and has
`segIndices`), used to surround failing tasks in batch witnesses. -/
def okTask : SceneTask :=
  ("sceneG", ⟨true, .exits 0 ""
    [⟨"sceneG_vh_clean_2.0.010000.segs.json", 7, .json true⟩]⟩)

/-- A scene whose selected candidate is not parseable JSON, for the C10
witness. -/
def badJsonTask : SceneTask :=
  ("sceneF", ⟨true, .exits 0 ""
    [⟨"sceneF_vh_clean_2.0.010000.segs.json", 4,
      .notJson "Expecting value: line 1 column 1 (char 0)"⟩]⟩)

/-- C10 witness: a concrete unparseable candidate yields the
`Unexpected error` failure, writes nothing, and the surrounding two-task
batch still yields two outcomes. -/
theorem C10_unparseable_candidate_witness :
    (processScene "sceneF" badJsonTask.2 10000).success = false ∧
    (processScene "sceneF" badJsonTask.2 10000).errMsg =
      some ("Unexpected error: " ++ "Expecting value: line 1 column 1 (char 0)") ∧
    (processScene "sceneF" badJsonTask.2 10000).errMsg ≠
      some "Invalid segs.json format: missing segIndices" ∧
    (processScene "sceneF" badJsonTask.2 10000).written = [] ∧
    (runSeq 10000 ([] ++ ("sceneF", badJsonTask.2) :: [okTask])).length =
      List.length ([] : List SceneTask) + 1 + [okTask].length :=
  C10_unparseable_candidate "sceneF" "" "Expecting value: line 1 column 1 (char 0)" 10000
    _ ⟨"sceneF_vh_clean_2.0.010000.segs.json", 4,
      .notJson "Expecting value: line 1 column 1 (char 0)"⟩
    [] [okTask] (by decide) (by decide)

/-- A scene whose external binary cannot be launched at all (e.g. the
`segmentator` file lost its execute bit mid-run). -/
def launchFailTask : SceneTask :=
  ("scene0000_00", ⟨true, .launchFailure "[Errno 13] Permission denied"⟩)

/-- C5 counterexample: in a two-task batch whose first task's binary
cannot be launched, the batch is NOT aborted — both tasks yield outcomes,
the second one succeeds, and the launch failure is recorded in the
failure ledger as an ordinary per-task `"Unexpected error"` entry
(lines 107-108), contradicting the claimed fatal `ConfigError` abort. -/
theorem C5_counterexample :
    (runSeq 10000 [launchFailTask, okTask]).length = 2 ∧
    (aggregateSeq (runSeq 10000 [launchFailTask, okTask])).success = 1 ∧
    (aggregateSeq (runSeq 10000 [launchFailTask, okTask])).fail = 1 ∧
    (aggregateSeq (runSeq 10000 [launchFailTask, okTask])).failedScenes =
      [("scene0000_00", "Unexpected error: [Errno 13] Permission denied")] := by
  decide

/-- C5 (amended): if the external binary cannot be launched during a
task, the `OSError` is caught at the task boundary: the task's outcome is
an ordinary per-task failure with detail `"Unexpected error: <oserror>"`,
nothing is written for it, and every task of the batch still yields its
outcome — the batch does not abort. -/
theorem C5_amended_launch_failure_ordinary (sceneName osErrMsg : String) (env : SceneEnv)
    (kthreshMicro : Nat) (pre post : List SceneTask)
    (hply : env.plyExists = true) (hext : env.external = .launchFailure osErrMsg) :
    (processScene sceneName env kthreshMicro).success = false ∧
    (processScene sceneName env kthreshMicro).errMsg =
      some ("Unexpected error: " ++ osErrMsg) ∧
    (processScene sceneName env kthreshMicro).written = [] ∧
    (runSeq kthreshMicro (pre ++ (sceneName, env) :: post)).length =
      pre.length + 1 + post.length := by
  refine ⟨?_, ?_, ?_, ?_⟩
  · simp only [processScene, hply, hext]
    rfl
  · simp only [processScene, hply, hext]
    rfl
  · simp only [processScene, hply, hext]
    rfl
  · rw [runSeq, List.length_map, List.length_append, List.length_cons]
    omega

/-- C5 (amended) witness: the concrete unlaunchable-binary scene, in a
batch with one healthy successor task. -/
theorem C5_amended_launch_failure_ordinary_witness :
    (processScene "scene0000_00" launchFailTask.2 10000).success = false ∧
    (processScene "scene0000_00" launchFailTask.2 10000).errMsg =
      some ("Unexpected error: " ++ "[Errno 13] Permission denied") ∧
    (processScene "scene0000_00" launchFailTask.2 10000).written = [] ∧
    (runSeq 10000 ([] ++ ("scene0000_00", launchFailTask.2) :: [okTask])).length =
      List.length ([] : List SceneTask) + 1 + [okTask].length :=
  C5_amended_launch_failure_ordinary "scene0000_00" "[Errno 13] Permission denied"
    launchFailTask.2 10000 [] [okTask] (by decide) (by decide)

/-- A scene whose binary launches but exits non-zero without producing
output: its task fails and its canonical output never appears. -/
def failingScene : SceneTask :=
  ("scene0002_00", ⟨true, .exits 1 "segmentation fault" []⟩)

/-- C9 counterexample: a batch containing one task that fails (binary
exits non-zero, no output produced), run twice with `skip_existing`
enabled and nothing else touching the output directory, still invokes
the external binary once on the second run: the failed scene has no
canonical output, so the skip filter (lines 206-215) does not exclude it. -/
theorem C9_counterexample :
    invocationCount (runWithSkip 10000
      (outputsAfterRun 10000 [] [failingScene]) [failingScene]) = 1 := by
  decide

/-- C9 (amended): if every task processed in the first `skip_existing`
run succeeds, the second run (against the grown output directory)
dispatches no scene at all and so performs zero external-binary
invocations; in general only scenes whose canonical output is still
absent — failed ones — are re-invoked. -/
theorem C9_amended_idempotence (kthreshMicro : Nat) (outDir : List String)
    (scenes : List SceneTask)
    (hall : ∀ r ∈ runWithSkip kthreshMicro outDir scenes, r.success = true) :
    invocationCount (runWithSkip kthreshMicro
      (outputsAfterRun kthreshMicro outDir scenes) scenes) = 0 := by
  have hnil : skipFilter (outputsAfterRun kthreshMicro outDir scenes) scenes = [] := by
    rw [skipFilter]
    apply List.filter_eq_nil_iff.mpr
    intro s hs
    have hmem : outputFilename s.1 ∈ outputsAfterRun kthreshMicro outDir scenes := by
      by_cases hout : outputFilename s.1 ∈ outDir
      · exact List.mem_append_left _ hout
      · have hsurv : s ∈ skipFilter outDir scenes := by
          rw [skipFilter]
          apply List.mem_filter.mpr
          refine ⟨hs, ?_⟩
          simp [List.elem_iff, hout]
        have hr : processScene s.1 s.2 kthreshMicro ∈ runWithSkip kthreshMicro outDir scenes := by
          rw [runWithSkip, runSeq]
          exact List.mem_map.mpr ⟨s, hsurv, rfl⟩
        have hw := processScene_success_written s.1 s.2 kthreshMicro (hall _ hr)
        apply List.mem_append_right
        rw [writtenFiles]
        apply List.mem_flatten.mpr
        refine ⟨[outputFilename s.1], List.mem_map.mpr ⟨_, hr, by rw [hw]⟩, by simp⟩
    simp [List.elem_iff, hmem]
  rw [runWithSkip, hnil]
  rfl

/-- C9 (amended) witness: a single always-succeeding scene is skipped on
the second run, which therefore performs zero invocations. -/
theorem C9_amended_idempotence_witness :
    invocationCount (runWithSkip 10000
      (outputsAfterRun 10000 [] [okTask]) [okTask]) = 0 :=
  C9_amended_idempotence 10000 [] [okTask] (by decide)

end BatchSegmentator
